import Mathlib

/-!
# Monad testnet trading bot — session state machine, shallow embedding

Shallow embedding of the per-user conversational session state machine of
the bot-orchestration file (`src/bot.js`).  Each JS handler becomes a Lean
function over one user's slot of the session store (`userSessions[userId]`,
modelled as `Option Session`) and the wallet store slot
(`userWallets[userId]`, modelled as `Option Wallet`).  Calls into the
wallet/swap collaborators are modelled by an `Oracle` record whose fields
carry the collaborator's response for the call (`Except` for calls that may
throw).  JS numbers are modelled as rationals; `parseFloat` returning `NaN`
is modelled as `Option.none`.
-/

namespace MonadBot

/-- Decidable test for a hexadecimal digit, as in the character class
`[a-fA-F0-9]` of the address regex. -/
def isHexDigit (c : Char) : Bool :=
  c.isDigit || ('a' ≤ c && c ≤ 'f') || ('A' ≤ c && c ≤ 'F')

/-- The address pattern `/^0x[a-fA-F0-9]{40}$/` used by the message router
and the buy/sell address handlers. -/
def isAddressFormat (s : String) : Bool :=
  match s.data with
  | '0' :: 'x' :: rest => rest.length == 40 && rest.all isHexDigit
  | _ => false

/-- Numeric value of a list of decimal digit characters. -/
def digitsVal (cs : List Char) : Nat :=
  cs.foldl (fun a c => a * 10 + (c.toNat - 48)) 0

/-- The decimal shape recognised by the `parseFloat` model: sign, integer
digits, fraction digits and the fraction length. -/
structure NumShape where
  neg : Bool
  intVal : Nat
  fracVal : Nat
  fracLen : Nat
deriving Repr, DecidableEq

/-- The rational value of a recognised decimal shape. -/
def NumShape.toRat (n : NumShape) : ℚ :=
  (if n.neg then (-1 : ℚ) else 1) *
    ((n.intVal : ℚ) + (n.fracVal : ℚ) / (10 : ℚ) ^ n.fracLen)

/-- Recognise the decimal shape at the front of an (already trimmed)
string: optional sign, integer part, optional fractional part; trailing
non-numeric characters ignored; `none` when no digits are found. -/
def parseShape (s : String) : Option NumShape :=
  let signRest : Bool × List Char :=
    match s.data with
    | '-' :: cs => (true, cs)
    | '+' :: cs => (false, cs)
    | cs => (false, cs)
  let rest := signRest.2
  let intPart := rest.takeWhile Char.isDigit
  let rest2 := rest.dropWhile Char.isDigit
  match rest2 with
  | '.' :: cs =>
    let fracPart := cs.takeWhile Char.isDigit
    if intPart.isEmpty && fracPart.isEmpty then none
    else some ⟨signRest.1, digitsVal intPart, digitsVal fracPart, fracPart.length⟩
  | _ =>
    if intPart.isEmpty then none
    else some ⟨signRest.1, digitsVal intPart, 0, 0⟩

/-- Model of JavaScript `parseFloat` on an already-trimmed string,
restricted to plain decimal digit strings (exponents out of scope).  `none`
models `NaN`. -/
def parseNum (s : String) : Option ℚ :=
  (parseShape s).map NumShape.toRat

/-- Model of JavaScript `parseInt` on the percentage piece of a callback
token such as `"25"`. -/
def parseIntNat (s : String) : Nat :=
  digitsVal (s.data.takeWhile Char.isDigit)

/-- Model of `x.toFixed(6)` as a rational: round to six decimal places
(the stored string's numeric value). -/
def round6 (q : ℚ) : ℚ :=
  (round (q * 1000000) : ℤ) / 1000000

/-- Token display metadata fetched from the swap engine
(`uniswapUtils.getTokenInfo`). -/
structure TokenInfo where
  symbol : String
  name : String
  decimals : Nat
  address : String
deriving Repr, DecidableEq

/-- One user's wallet record (`userWallets[userId]`). -/
structure Wallet where
  address : String
  privateKey : String
  mnemonic : Option String
deriving Repr, DecidableEq

/-- The session `state` tags appearing in `bot.js`. -/
inductive SState where
  | WALLET_MENU
  | IMPORT_PRIVATE_KEY
  | IMPORT_MNEMONIC
  | BUY_TOKEN
  | BUY_AMOUNT
  | BUY_CUSTOM_AMOUNT
  | SELL_TOKEN
  | SELL_AMOUNT
  | SELL_CUSTOM_AMOUNT
deriving Repr, DecidableEq

/-- One user's session object (`userSessions[userId]`).  Fields absent on
the JS object are `none`; amounts stored as strings in JS are modelled by
their numeric value. -/
structure Session where
  state : Option SState
  tokenAddress : Option String
  tokenInfo : Option TokenInfo
  tokenBalance : Option ℚ
  monAmount : Option ℚ
  tokenAmount : Option ℚ
deriving Repr, DecidableEq

/-- A session holding only a `state` field, as in
`userSessions[userId] = { state: "BUY_TOKEN" }`. -/
def mkSession (st : SState) : Session :=
  ⟨some st, none, none, none, none, none⟩

/-- Outbound messages, abstracted to the send sites of `bot.js` (the
concrete text is presentational). -/
inductive Msg where
  | welcome
  | helpText
  | walletMenuPrompt
  | walletCreated (w : Wallet)
  | walletNotFound
  | loading
  | balanceInfo (monBalance : ℚ)
  | fetchError (e : String)
  | insufficientBalance
  | enterBuyToken (monBalance : ℚ)
  | enterSellToken
  | invalidAddress
  | invalidAmount
  | invalidPrivateKey
  | invalidMnemonic
  | walletImported (address : String)
  | tokenPresentation (info : TokenInfo)
  | buyAmountPrompt (info : TokenInfo) (addr : String)
  | sellAmountPrompt (info : TokenInfo) (b : ℚ)
  | buyCustomPrompt
  | sellCustomPrompt
  | confirmBuyPrompt (amt : Option ℚ)
  | confirmSellPrompt (amt : Option ℚ)
  | enterPrivateKey
  | enterMnemonic
  | processing
  | buySuccess (tx : String)
  | sellSuccess (tx : String)
  | txFailed (e : String)
  | noTokensToSell
  | cancelled
  | privateKeyShown
  | walletDeleted
  | tokenDetails (info : TokenInfo)
  | jsError
deriving Repr, DecidableEq

/-- Responses of the wallet/swap/scan collaborators for the calls a handler
makes; `Except.error` models the call throwing. -/
structure Oracle where
  createWallet : Wallet
  importPK : Except String Wallet
  importMnemonic : Except String Wallet
  getBalance : Except String ℚ
  getTokenInfo : String → Except String TokenInfo
  getTokenBalance : String → Except String ℚ
  getTokenDetails : String → Except String Unit
  buyToken : Except String String
  sellToken : Except String String

/-- Result of a handler that may touch only the session slot. -/
structure HR where
  session : Option Session
  msgs : List Msg
deriving Repr, DecidableEq

/-- Result of a handler that may also touch the wallet slot. -/
structure WR where
  wallet : Option Wallet
  session : Option Session
  msgs : List Msg
deriving Repr, DecidableEq

/-- `data.split(UNDERSCORE)[1]`: the piece after the first underscore (empty when
there is none, matching the `undefined`-propagation of the source only on
the tokens actually dispatched here). -/
def underscoreField1 (s : String) : String :=
  ⟨(s.data.dropWhile (fun c => c ≠ '_')).drop 1⟩

/-- `s.startsWith p`, computed on the character lists. -/
def strStarts (s p : String) : Bool :=
  p.data.isPrefixOf s.data

/-- `s.slice(n)` / `s.replace(prefixToken, EMPTY)` for a leading token of length `n`:
drop the first `n` characters. -/
def dropChars (n : Nat) (s : String) : String :=
  ⟨s.data.drop n⟩

/-! ## Handlers (one Lean function per JS handler in `bot.js`) -/

/-- `handleStart`: welcome message only. -/
def handleStart : List Msg := [.welcome]

/-- `handleHelp`: help message only. -/
def handleHelp : List Msg := [.helpText]

/-- `handleCreateWallet` (command `/createwallet` and callback `wallet`):
replaces any existing session with `{ state: "WALLET_MENU" }`. -/
def handleCreateWallet : HR :=
  ⟨some (mkSession .WALLET_MENU), [.walletMenuPrompt]⟩

/-- `handleCreateNewWallet` (command `/create_wallet` and callback
`create_wallet`): overwrites the wallet slot, session untouched. -/
def handleCreateNewWallet (o : Oracle) : Option Wallet × List Msg :=
  (some o.createWallet, [.walletCreated o.createWallet])

/-- `handleBalance`: message-only; wallet-gated.  The token listing appended
to the balance message is presentational and not modelled beyond the
success/error split of the native-balance fetch. -/
def handleBalance (o : Oracle) (w : Option Wallet) : List Msg :=
  match w with
  | none => [.walletNotFound]
  | some _ =>
    match o.getBalance with
    | .ok b => [.loading, .balanceInfo b]
    | .error e => [.loading, .fetchError e]

/-- `handleBuy` (command `/buy`): wallet-gated; requires a positive native
balance, then starts the buy flow with `{ state: "BUY_TOKEN" }`. -/
def handleBuy (o : Oracle) (w : Option Wallet) (sess : Option Session) : HR :=
  match w with
  | none => ⟨sess, [.walletNotFound]⟩
  | some _ =>
    match o.getBalance with
    | .error _ => ⟨sess, [.jsError]⟩
    | .ok b =>
      if b ≤ 0 then ⟨sess, [.insufficientBalance]⟩
      else ⟨some (mkSession .BUY_TOKEN), [.enterBuyToken b]⟩

/-- `handleSell` (command `/sell`): wallet-gated; starts the sell flow with
`{ state: "SELL_TOKEN" }` (no balance check here). -/
def handleSell (w : Option Wallet) (sess : Option Session) : HR :=
  match w with
  | none => ⟨sess, [.walletNotFound]⟩
  | some _ => ⟨some (mkSession .SELL_TOKEN), [.enterSellToken]⟩

/-- `handleContractAddressInput`: ad-hoc token lookup for a bare address.
Wallet-gated; fetches token info, details and both balances inside one
`try`, and never touches the session slot (the caller keeps it). -/
def handleContractAddressInput (o : Oracle) (w : Option Wallet)
    (tokenAddress : String) : List Msg :=
  match w with
  | none => [.walletNotFound]
  | some _ =>
    match o.getTokenInfo tokenAddress with
    | .error e => [.loading, .fetchError e]
    | .ok info =>
      match o.getTokenDetails tokenAddress with
      | .error e => [.loading, .fetchError e]
      | .ok _ =>
        match o.getTokenBalance tokenAddress with
        | .error e => [.loading, .fetchError e]
        | .ok _ =>
          match o.getBalance with
          | .error e => [.loading, .fetchError e]
          | .ok _ => [.loading, .tokenPresentation info]

/-- `handleBuyTokenAddress`: free text while buying.  Re-validates the
address pattern; in state `BUY_TOKEN` a successful token-info fetch replaces
the session with `{ state: "BUY_AMOUNT", tokenAddress, tokenInfo }`, a
throwing fetch leaves it unchanged; any other state falls through to the
ad-hoc lookup. -/
def handleBuyTokenAddress (o : Oracle) (w : Option Wallet)
    (sess : Option Session) (text : String) : HR :=
  if !isAddressFormat text then ⟨sess, [.invalidAddress]⟩
  else
    match sess with
    | some s =>
      if s.state = some .BUY_TOKEN then
        match o.getTokenInfo text with
        | .ok info =>
          ⟨some ⟨some .BUY_AMOUNT, some text, some info, none, none, none⟩,
           [.loading, .buyAmountPrompt info text]⟩
        | .error e => ⟨sess, [.loading, .fetchError e]⟩
      else ⟨sess, handleContractAddressInput o w text⟩
    | none => ⟨sess, handleContractAddressInput o w text⟩

/-- `handleBuyAmountChoice` (callbacks `buy_1 … buy_50`, `buy_custom`):
no-op unless the session exists in state `BUY_AMOUNT`; `buy_custom` flips
the state in place, a fixed choice stores `monAmount` in place. -/
def handleBuyAmountChoice (sess : Option Session) (data : String) : HR :=
  match sess with
  | none => ⟨none, []⟩
  | some s =>
    if s.state ≠ some .BUY_AMOUNT then ⟨sess, []⟩
    else if data = "buy_custom" then
      ⟨some { s with state := some .BUY_CUSTOM_AMOUNT }, [.buyCustomPrompt]⟩
    else
      let amount := parseNum (underscoreField1 data)
      ⟨some { s with monAmount := amount }, [.confirmBuyPrompt amount]⟩

/-- `handleBuyCustomAmount`: free text in state `BUY_CUSTOM_AMOUNT`.  The
numeric validation runs before the session guard, as in the source; the
balance bound uses a fresh `getBalance` call, not a stored snapshot.  A
missing wallet or a throwing balance fetch escapes to the generic error
wrapper with the session unchanged. -/
def handleBuyCustomAmount (o : Oracle) (w : Option Wallet)
    (sess : Option Session) (text : String) : HR :=
  match parseNum text with
  | none => ⟨sess, [.invalidAmount]⟩
  | some a =>
    if a ≤ 0 then ⟨sess, [.invalidAmount]⟩
    else
      match sess with
      | none => ⟨none, []⟩
      | some s =>
        if s.state ≠ some .BUY_CUSTOM_AMOUNT then ⟨sess, []⟩
        else
          match w with
          | none => ⟨sess, [.jsError]⟩
          | some _ =>
            match o.getBalance with
            | .error _ => ⟨sess, [.jsError]⟩
            | .ok m =>
              if m < a then ⟨sess, [.insufficientBalance]⟩
              else
                ⟨some { s with state := some .BUY_AMOUNT, monAmount := some a },
                 [.confirmBuyPrompt (some a)]⟩

/-- `handleConfirmBuy` (callback `confirm_buy`): returns early only when no
session exists; then reads the wallet's key (a missing wallet throws,
leaving the session in place) and interpolates `tokenInfo.symbol` into the
processing message before the `try` — a session without `tokenInfo` throws
`TypeError` there, the wrapper catches it, and the trailing
`delete userSessions[userId]` is never reached, so the session is
retained.  With `tokenInfo` present, the buy executes and the session is
cleared whether the call returns a hash or throws.  The delayed
token-details follow-up fired on success is outside the synchronous model. -/
def handleConfirmBuy (o : Oracle) (w : Option Wallet)
    (sess : Option Session) : HR :=
  match sess with
  | none => ⟨none, []⟩
  | some s =>
    match w with
    | none => ⟨sess, [.jsError]⟩
    | some _ =>
      match s.tokenInfo with
      | none => ⟨sess, [.jsError]⟩
      | some _ =>
        match o.buyToken with
        | .ok tx => ⟨none, [.processing, .buySuccess tx]⟩
        | .error e => ⟨none, [.processing, .txFailed e]⟩

/-- `handleSellTokenAddress`: free text while selling.  In state
`SELL_TOKEN` with a valid address, fetches info and balance inside a `try`
(a missing wallet surfaces as the caught fetch error); a non-positive
balance keeps the session and reports there is nothing to sell, otherwise
the session becomes `SELL_AMOUNT` with the balance snapshot. -/
def handleSellTokenAddress (o : Oracle) (w : Option Wallet)
    (sess : Option Session) (text : String) : HR :=
  if !isAddressFormat text then ⟨sess, [.invalidAddress]⟩
  else
    match sess with
    | some s =>
      if s.state = some .SELL_TOKEN then
        match w with
        | none => ⟨sess, [.loading, .fetchError "TypeError"]⟩
        | some _ =>
          match o.getTokenInfo text with
          | .error e => ⟨sess, [.loading, .fetchError e]⟩
          | .ok info =>
            match o.getTokenBalance text with
            | .error e => ⟨sess, [.loading, .fetchError e]⟩
            | .ok b =>
              if b ≤ 0 then ⟨sess, [.loading, .noTokensToSell]⟩
              else
                ⟨some ⟨some .SELL_AMOUNT, some text, some info, some b, none, none⟩,
                 [.loading, .sellAmountPrompt info b]⟩
      else ⟨sess, handleContractAddressInput o w text⟩
    | none => ⟨sess, handleContractAddressInput o w text⟩

/-- `handleSellAmountChoice` (callbacks `sell_25 … sell_100`,
`sell_custom`): no-op unless in state `SELL_AMOUNT`; a percentage choice
stages `(balance × pct / 100).toFixed(6)` in place (an absent snapshot
propagates as `NaN`, modelled by `none`). -/
def handleSellAmountChoice (sess : Option Session) (data : String) : HR :=
  match sess with
  | none => ⟨none, []⟩
  | some s =>
    if s.state ≠ some .SELL_AMOUNT then ⟨sess, []⟩
    else if data = "sell_custom" then
      ⟨some { s with state := some .SELL_CUSTOM_AMOUNT }, [.sellCustomPrompt]⟩
    else
      let pct := parseIntNat (underscoreField1 data)
      let amount := s.tokenBalance.map (fun b => round6 (b * pct / 100))
      ⟨some { s with tokenAmount := amount }, [.confirmSellPrompt amount]⟩

/-- `handleSellCustomAmount`: free text in state `SELL_CUSTOM_AMOUNT`.  The
amount is bounded by the session's balance snapshot (`amount > totalBalance`
rejects; with an absent snapshot the JS comparison against `NaN` is false,
so the amount is accepted). -/
def handleSellCustomAmount (sess : Option Session) (text : String) : HR :=
  match parseNum text with
  | none => ⟨sess, [.invalidAmount]⟩
  | some a =>
    if a ≤ 0 then ⟨sess, [.invalidAmount]⟩
    else
      match sess with
      | none => ⟨none, []⟩
      | some s =>
        if s.state ≠ some .SELL_CUSTOM_AMOUNT then ⟨sess, []⟩
        else
          match s.tokenBalance with
          | some b =>
            if a > b then ⟨sess, [.insufficientBalance]⟩
            else
              ⟨some { s with state := some .SELL_AMOUNT, tokenAmount := some a },
               [.confirmSellPrompt (some a)]⟩
          | none =>
            ⟨some { s with state := some .SELL_AMOUNT, tokenAmount := some a },
             [.confirmSellPrompt (some a)]⟩

/-- `handleConfirmSell` (callback `confirm_sell`): same shape as
`handleConfirmBuy` — only a missing session is a no-op; the processing
message reads `tokenInfo.symbol` before the `try`, so a session without
`tokenInfo` throws there and is retained; otherwise the session is
cleared whether the sell call returns a hash or throws. -/
def handleConfirmSell (o : Oracle) (w : Option Wallet)
    (sess : Option Session) : HR :=
  match sess with
  | none => ⟨none, []⟩
  | some s =>
    match w with
    | none => ⟨sess, [.jsError]⟩
    | some _ =>
      match s.tokenInfo with
      | none => ⟨sess, [.jsError]⟩
      | some _ =>
        match o.sellToken with
        | .ok tx => ⟨none, [.processing, .sellSuccess tx]⟩
        | .error e => ⟨none, [.processing, .txFailed e]⟩

/-- `handleMyWallet` / `handleMyWalletImplementation`: message-only. -/
def handleMyWallet (o : Oracle) (w : Option Wallet) : List Msg :=
  match w with
  | none => [.walletNotFound]
  | some _ =>
    match o.getBalance with
    | .ok b => [.loading, .balanceInfo b]
    | .error e => [.loading, .fetchError e]

/-- `handleRefreshToken`: message-only, session untouched. -/
def handleRefreshToken (o : Oracle) (w : Option Wallet)
    (tokenAddress : String) : List Msg :=
  match w with
  | none => [.walletNotFound]
  | some _ =>
    match o.getTokenInfo tokenAddress with
    | .error e => [.loading, .fetchError e]
    | .ok info =>
      match o.getTokenBalance tokenAddress with
      | .error e => [.loading, .fetchError e]
      | .ok _ =>
        match o.getTokenDetails tokenAddress with
        | .error e => [.loading, .fetchError e]
        | .ok _ => [.loading, .tokenDetails info]

/-- `handleSellToken` (callback `sell_token_<addr>`): wallet-gated; a
non-positive token balance reports there is nothing to sell and leaves the
session alone, otherwise the session becomes `SELL_AMOUNT` with the
balance snapshot. -/
def handleSellToken (o : Oracle) (w : Option Wallet)
    (sess : Option Session) (tokenAddress : String) : HR :=
  match w with
  | none => ⟨sess, [.walletNotFound]⟩
  | some _ =>
    match o.getTokenInfo tokenAddress with
    | .error e => ⟨sess, [.fetchError e]⟩
    | .ok info =>
      match o.getTokenBalance tokenAddress with
      | .error e => ⟨sess, [.fetchError e]⟩
      | .ok b =>
        if b ≤ 0 then ⟨sess, [.noTokensToSell]⟩
        else
          ⟨some ⟨some .SELL_AMOUNT, some tokenAddress, some info, some b, none, none⟩,
           [.sellAmountPrompt info b]⟩

/-- `handleImportPrivateKey`: free text in state `IMPORT_PRIVATE_KEY`.  A
successful import overwrites the wallet and clears the session; a
throwing import reports an invalid key and keeps both slots. -/
def handleImportPrivateKey (o : Oracle) (w : Option Wallet)
    (sess : Option Session) : WR :=
  match o.importPK with
  | .ok wal => ⟨some wal, none, [.walletImported wal.address]⟩
  | .error _ => ⟨w, sess, [.invalidPrivateKey]⟩

/-- `handleImportMnemonic`: free text in state `IMPORT_MNEMONIC`. -/
def handleImportMnemonic (o : Oracle) (w : Option Wallet)
    (sess : Option Session) : WR :=
  match o.importMnemonic with
  | .ok wal => ⟨some wal, none, [.walletImported wal.address]⟩
  | .error _ => ⟨w, sess, [.invalidMnemonic]⟩

/-- Embed a session-only handler result as a full result. -/
def HR.lift (w : Option Wallet) (h : HR) : WR :=
  ⟨w, h.session, h.msgs⟩

/-- The `bot.on("message")` router for non-command text: address-pattern
text is wallet-gated and dispatched on the session state (ad-hoc lookup
when there is no session, the session has no state, or the state is
unrelated); other text is dispatched by the session-state switch. -/
def onMessage (o : Oracle) (w : Option Wallet) (sess : Option Session)
    (text : String) : WR :=
  if isAddressFormat text then
    match w with
    | none => ⟨none, sess, [.walletNotFound]⟩
    | some _ =>
      match sess with
      | none => ⟨w, sess, handleContractAddressInput o w text⟩
      | some s =>
        match s.state with
        | none => ⟨w, sess, handleContractAddressInput o w text⟩
        | some .BUY_TOKEN => HR.lift w (handleBuyTokenAddress o w sess text)
        | some .SELL_TOKEN => HR.lift w (handleSellTokenAddress o w sess text)
        | some _ => ⟨w, sess, handleContractAddressInput o w text⟩
  else
    match sess with
    | none => ⟨w, none, []⟩
    | some s =>
      match s.state with
      | some .IMPORT_PRIVATE_KEY => handleImportPrivateKey o w sess
      | some .IMPORT_MNEMONIC => handleImportMnemonic o w sess
      | some .BUY_TOKEN => HR.lift w (handleBuyTokenAddress o w sess text)
      | some .BUY_CUSTOM_AMOUNT => HR.lift w (handleBuyCustomAmount o w sess text)
      | some .SELL_TOKEN => HR.lift w (handleSellTokenAddress o w sess text)
      | some .SELL_CUSTOM_AMOUNT => HR.lift w (handleSellCustomAmount sess text)
      | _ => ⟨w, sess, []⟩

/-- The `bot.on("callback_query")` dispatcher: the `refresh_`,
`sell_token_` and `buy_token_` prefixed tokens first (the `buy_token_`
branch sets the session inline with no wallet gate, and a throwing
token-info fetch escapes to the generic wrapper), then the switch on the
remaining tokens; an unknown token does nothing. -/
def onCallback (o : Oracle) (w : Option Wallet) (sess : Option Session)
    (data : String) : WR :=
  if strStarts data "refresh_" then
    ⟨w, sess, handleRefreshToken o w (dropChars 8 data)⟩
  else if strStarts data "sell_token_" then
    HR.lift w (handleSellToken o w sess (dropChars 11 data))
  else if strStarts data "buy_token_" then
    let addr := dropChars 10 data
    match o.getTokenInfo addr with
    | .ok info =>
      ⟨w, some ⟨some .BUY_AMOUNT, some addr, some info, none, none, none⟩,
       [.buyAmountPrompt info addr]⟩
    | .error _ => ⟨w, sess, [.jsError]⟩
  else if data = "wallet" then HR.lift w handleCreateWallet
  else if data = "mywallet" then ⟨w, sess, handleMyWallet o w⟩
  else if data = "balance" then ⟨w, sess, handleBalance o w⟩
  else if data = "buy" then HR.lift w (handleBuy o w sess)
  else if data = "sell" then HR.lift w (handleSell w sess)
  else if data = "help" then ⟨w, sess, handleHelp⟩
  else if data = "create_wallet" then
    ⟨(handleCreateNewWallet o).1, sess, (handleCreateNewWallet o).2⟩
  else if data = "show_private_key" then
    ⟨w, sess, if w.isSome then [.privateKeyShown] else []⟩
  else if data = "delete_wallet" then
    if w.isSome then ⟨none, sess, [.walletDeleted]⟩ else ⟨w, sess, []⟩
  else if data = "import_private_key" then
    ⟨w, some (mkSession .IMPORT_PRIVATE_KEY), [.enterPrivateKey]⟩
  else if data = "import_mnemonic" then
    ⟨w, some (mkSession .IMPORT_MNEMONIC), [.enterMnemonic]⟩
  else if data = "cancel" then ⟨w, none, [.cancelled]⟩
  else if data = "buy_1" ∨ data = "buy_2" ∨ data = "buy_5" ∨
          data = "buy_10" ∨ data = "buy_50" ∨ data = "buy_custom" then
    HR.lift w (handleBuyAmountChoice sess data)
  else if data = "sell_25" ∨ data = "sell_50" ∨ data = "sell_75" ∨
          data = "sell_100" ∨ data = "sell_custom" then
    HR.lift w (handleSellAmountChoice sess data)
  else if data = "confirm_buy" then HR.lift w (handleConfirmBuy o w sess)
  else if data = "confirm_sell" then HR.lift w (handleConfirmSell o w sess)
  else ⟨w, sess, []⟩

/-- Inbound chat events consumed by the dispatcher (commands are filtered
out of the free-text handler by the leading-slash check in the source). -/
inductive Event where
  | cmdStart
  | cmdHelp
  | cmdCreateWallet
  | cmdCreateWalletDirect
  | cmdMyWallet
  | cmdBalance
  | cmdBuy
  | cmdSell
  | text (t : String)
  | callback (data : String)
deriving Repr, DecidableEq

/-- One user's slice of the two stores. -/
structure UState where
  wallet : Option Wallet
  session : Option Session
deriving Repr, DecidableEq

/-- Process one inbound event for one user (the dispatcher). -/
def step (o : Oracle) (st : UState) (e : Event) : UState × List Msg :=
  match e with
  | .cmdStart => (st, handleStart)
  | .cmdHelp => (st, handleHelp)
  | .cmdCreateWallet =>
    ({ st with session := handleCreateWallet.session }, handleCreateWallet.msgs)
  | .cmdCreateWalletDirect =>
    ({ st with wallet := (handleCreateNewWallet o).1 }, (handleCreateNewWallet o).2)
  | .cmdMyWallet => (st, handleMyWallet o st.wallet)
  | .cmdBalance => (st, handleBalance o st.wallet)
  | .cmdBuy =>
    let h := handleBuy o st.wallet st.session
    ({ st with session := h.session }, h.msgs)
  | .cmdSell =>
    let h := handleSell st.wallet st.session
    ({ st with session := h.session }, h.msgs)
  | .text t =>
    let r := onMessage o st.wallet st.session t
    (⟨r.wallet, r.session⟩, r.msgs)
  | .callback d =>
    let r := onCallback o st.wallet st.session d
    (⟨r.wallet, r.session⟩, r.msgs)

/-- Run a trace of events, each with the collaborator responses in force
when it was processed. -/
def runEvents (st : UState) : List (Oracle × Event) → UState
  | [] => st
  | oe :: rest => runEvents (step oe.1 st oe.2).1 rest

/-! ## Concrete fixtures for witnesses -/

/-- A well-formed token contract address. -/
def addr0 : String := "0x1234567890abcdef1234567890abcdef12345678"

/-- Token metadata returned by the successful oracle. -/
def tInfo0 : TokenInfo := ⟨"TKN", "Token", 18, addr0⟩

/-- A wallet on record. -/
def w0 : Wallet := ⟨"0xmyaddress", "0xprivatekey", none⟩

/-- Collaborators that all succeed: 100 MON native balance, 10 tokens,
both swap directions return a transaction hash. -/
def oracle0 : Oracle :=
  ⟨w0, .ok w0, .ok w0, .ok 100, fun _ => .ok tInfo0, fun _ => .ok 10,
   fun _ => .ok (), .ok "0xbuytx", .ok "0xselltx"⟩

/-- Collaborators whose swap-execution calls throw. -/
def oracleThrow : Oracle :=
  ⟨w0, .ok w0, .ok w0, .ok 100, fun _ => .ok tInfo0, fun _ => .ok 10,
   fun _ => .ok (), .error "boom", .error "boom"⟩

/-- A `BUY_AMOUNT` session with a staged buy amount of 2 MON. -/
def sessBuyStaged : Session :=
  ⟨some .BUY_AMOUNT, some addr0, some tInfo0, none, some 2, none⟩

/-- A `SELL_AMOUNT` session with snapshot 100 and a staged sell amount. -/
def sessSellStaged : Session :=
  ⟨some .SELL_AMOUNT, some addr0, some tInfo0, some 100, none, some 25⟩

/-- A `SELL_AMOUNT` session with snapshot 100 and nothing staged yet. -/
def sessSell100 : Session :=
  ⟨some .SELL_AMOUNT, some addr0, some tInfo0, some 100, none, none⟩

/-- A `SELL_CUSTOM_AMOUNT` session with snapshot 10. -/
def sessSellCustom10 : Session :=
  ⟨some .SELL_CUSTOM_AMOUNT, some addr0, some tInfo0, some 10, none, none⟩

/-- A `BUY_CUSTOM_AMOUNT` session for `addr0`. -/
def sessBuyCustom : Session :=
  ⟨some .BUY_CUSTOM_AMOUNT, some addr0, some tInfo0, none, none, none⟩

/-! ## Parsing helper lemmas -/

/-- Unfold `parseNum` through a computed shape. -/
theorem parseNum_eq_of_shape (s : String) (sh : NumShape)
    (h : parseShape s = some sh) : parseNum s = some sh.toRat := by
  rw [parseNum, h, Option.map_some']

/-- An integer shape denotes its integer value. -/
theorem toRat_int (n : Nat) : NumShape.toRat ⟨false, n, 0, 0⟩ = (n : ℚ) := by
  simp [NumShape.toRat]

/-- `parseFloat("3.5")` is `3.5`. -/
theorem parseNum_threeFive : parseNum "3.5" = some (7 / 2) := by
  rw [parseNum_eq_of_shape "3.5" ⟨false, 3, 5, 1⟩ (by decide)]
  norm_num [NumShape.toRat]

/-! ## The token-info invariant

Every reachable session sitting in one of the four in-flow states, and
every reachable session holding a staged amount, carries `tokenInfo` —
this is what makes the pre-`try` `tokenInfo.symbol` read of the confirm
handlers safe on every session the program can actually build. -/

/-- In-flow sessions and staged sessions carry token metadata. -/
def InfoInv (sess : Option Session) : Prop :=
  ∀ s, sess = some s →
    ((s.state = some SState.BUY_AMOUNT ∨ s.state = some SState.BUY_CUSTOM_AMOUNT ∨
      s.state = some SState.SELL_AMOUNT ∨ s.state = some SState.SELL_CUSTOM_AMOUNT) →
      s.tokenInfo.isSome) ∧
    ((s.monAmount.isSome ∨ s.tokenAmount.isSome) → s.tokenInfo.isSome)

theorem infoInv_none : InfoInv none := by
  intro s h
  cases h

theorem infoInv_has (s : Session) (hi : s.tokenInfo.isSome) : InfoInv (some s) := by
  intro s' e
  injection e with e
  subst e
  exact ⟨fun _ => hi, fun _ => hi⟩

theorem infoInv_mk (st : SState) (h1 : st ≠ .BUY_AMOUNT)
    (h2 : st ≠ .BUY_CUSTOM_AMOUNT) (h3 : st ≠ .SELL_AMOUNT)
    (h4 : st ≠ .SELL_CUSTOM_AMOUNT) : InfoInv (some (mkSession st)) := by
  intro s e
  injection e with e
  subst e
  constructor
  · intro hS
    rcases hS with h | h | h | h <;> simp [mkSession] at h
    exacts [absurd h h1, absurd h h2, absurd h h3, absurd h h4]
  · intro hA
    rcases hA with h | h <;> simp [mkSession] at h

theorem infoInv_handleBuy (o : Oracle) (w : Option Wallet)
    (sess : Option Session) (h : InfoInv sess) :
    InfoInv (handleBuy o w sess).session := by
  unfold handleBuy
  cases w with
  | none => exact h
  | some wal =>
    cases o.getBalance with
    | error e => exact h
    | ok b =>
      by_cases hle : b ≤ 0
      · simp only [if_pos hle]
        exact h
      · simp only [if_neg hle]
        exact infoInv_mk .BUY_TOKEN (by decide) (by decide) (by decide) (by decide)

theorem infoInv_handleSell (w : Option Wallet) (sess : Option Session)
    (h : InfoInv sess) : InfoInv (handleSell w sess).session := by
  unfold handleSell
  cases w with
  | none => exact h
  | some wal =>
    exact infoInv_mk .SELL_TOKEN (by decide) (by decide) (by decide) (by decide)

theorem infoInv_handleBuyTokenAddress (o : Oracle) (w : Option Wallet)
    (sess : Option Session) (text : String) (h : InfoInv sess) :
    InfoInv (handleBuyTokenAddress o w sess text).session := by
  unfold handleBuyTokenAddress
  split
  · exact h
  · split
    · split
      · split
        · exact infoInv_has _ (by simp)
        · exact h
      · exact h
    · exact h

theorem infoInv_handleBuyAmountChoice (sess : Option Session) (data : String)
    (h : InfoInv sess) : InfoInv (handleBuyAmountChoice sess data).session := by
  unfold handleBuyAmountChoice
  cases sess with
  | none => exact infoInv_none
  | some s =>
    dsimp only
    by_cases hst : s.state = some SState.BUY_AMOUNT
    · have hinfo := (h s rfl).1 (Or.inl hst)
      rw [if_neg (not_not_intro hst)]
      by_cases hd : data = "buy_custom"
      · rw [if_pos hd]
        exact infoInv_has _ hinfo
      · rw [if_neg hd]
        exact infoInv_has _ hinfo
    · rw [if_pos hst]
      exact h

theorem infoInv_handleBuyCustomAmount (o : Oracle) (w : Option Wallet)
    (sess : Option Session) (text : String) (h : InfoInv sess) :
    InfoInv (handleBuyCustomAmount o w sess text).session := by
  unfold handleBuyCustomAmount
  cases parseNum text with
  | none => exact h
  | some a =>
    dsimp only
    by_cases ha : a ≤ 0
    · rw [if_pos ha]
      exact h
    · rw [if_neg ha]
      cases sess with
      | none => exact infoInv_none
      | some s =>
        dsimp only
        by_cases hst : s.state = some SState.BUY_CUSTOM_AMOUNT
        · have hinfo := (h s rfl).1 (Or.inr (Or.inl hst))
          rw [if_neg (not_not_intro hst)]
          cases w with
          | none => exact h
          | some wal =>
            dsimp only
            cases o.getBalance with
            | error e => exact h
            | ok m =>
              dsimp only
              by_cases hlt : m < a
              · rw [if_pos hlt]
                exact h
              · rw [if_neg hlt]
                exact infoInv_has _ hinfo
        · rw [if_pos hst]
          exact h

theorem infoInv_handleConfirmBuy (o : Oracle) (w : Option Wallet)
    (sess : Option Session) (h : InfoInv sess) :
    InfoInv (handleConfirmBuy o w sess).session := by
  unfold handleConfirmBuy
  cases sess with
  | none => exact infoInv_none
  | some s =>
    cases w with
    | none => exact h
    | some wal =>
      dsimp only
      cases s.tokenInfo with
      | none => exact h
      | some info =>
        cases o.buyToken with
        | ok tx => exact infoInv_none
        | error e => exact infoInv_none

theorem infoInv_handleConfirmSell (o : Oracle) (w : Option Wallet)
    (sess : Option Session) (h : InfoInv sess) :
    InfoInv (handleConfirmSell o w sess).session := by
  unfold handleConfirmSell
  cases sess with
  | none => exact infoInv_none
  | some s =>
    cases w with
    | none => exact h
    | some wal =>
      dsimp only
      cases s.tokenInfo with
      | none => exact h
      | some info =>
        cases o.sellToken with
        | ok tx => exact infoInv_none
        | error e => exact infoInv_none

theorem infoInv_handleSellTokenAddress (o : Oracle) (w : Option Wallet)
    (sess : Option Session) (text : String) (h : InfoInv sess) :
    InfoInv (handleSellTokenAddress o w sess text).session := by
  unfold handleSellTokenAddress
  split
  · exact h
  · split
    · split
      · cases w with
        | none => exact h
        | some wal =>
          cases o.getTokenInfo text with
          | error e => exact h
          | ok info =>
            cases o.getTokenBalance text with
            | error e => exact h
            | ok b =>
              by_cases hle : b ≤ 0
              · simp only [if_pos hle]
                exact h
              · simp only [if_neg hle]
                exact infoInv_has _ (by simp)
      · exact h
    · exact h

theorem infoInv_handleSellAmountChoice (sess : Option Session) (data : String)
    (h : InfoInv sess) : InfoInv (handleSellAmountChoice sess data).session := by
  unfold handleSellAmountChoice
  cases sess with
  | none => exact infoInv_none
  | some s =>
    dsimp only
    by_cases hst : s.state = some SState.SELL_AMOUNT
    · have hinfo := (h s rfl).1 (Or.inr (Or.inr (Or.inl hst)))
      rw [if_neg (not_not_intro hst)]
      by_cases hd : data = "sell_custom"
      · rw [if_pos hd]
        exact infoInv_has _ hinfo
      · rw [if_neg hd]
        exact infoInv_has _ hinfo
    · rw [if_pos hst]
      exact h

theorem infoInv_handleSellCustomAmount (sess : Option Session) (text : String)
    (h : InfoInv sess) : InfoInv (handleSellCustomAmount sess text).session := by
  unfold handleSellCustomAmount
  cases parseNum text with
  | none => exact h
  | some a =>
    dsimp only
    by_cases ha : a ≤ 0
    · rw [if_pos ha]
      exact h
    · rw [if_neg ha]
      cases sess with
      | none => exact infoInv_none
      | some s =>
        dsimp only
        by_cases hst : s.state = some SState.SELL_CUSTOM_AMOUNT
        · have hinfo := (h s rfl).1 (Or.inr (Or.inr (Or.inr hst)))
          rw [if_neg (not_not_intro hst)]
          cases s.tokenBalance with
          | none => exact infoInv_has _ hinfo
          | some b =>
            dsimp only
            by_cases hgt : a > b
            · rw [if_pos hgt]
              exact h
            · rw [if_neg hgt]
              exact infoInv_has _ hinfo
        · rw [if_pos hst]
          exact h

theorem infoInv_handleSellToken (o : Oracle) (w : Option Wallet)
    (sess : Option Session) (addr : String) (h : InfoInv sess) :
    InfoInv (handleSellToken o w sess addr).session := by
  unfold handleSellToken
  cases w with
  | none => exact h
  | some wal =>
    cases o.getTokenInfo addr with
    | error e => exact h
    | ok info =>
      cases o.getTokenBalance addr with
      | error e => exact h
      | ok b =>
        by_cases hle : b ≤ 0
        · simp only [if_pos hle]
          exact h
        · simp only [if_neg hle]
          exact infoInv_has _ (by simp)

theorem infoInv_handleImportPrivateKey (o : Oracle) (w : Option Wallet)
    (sess : Option Session) (h : InfoInv sess) :
    InfoInv (handleImportPrivateKey o w sess).session := by
  unfold handleImportPrivateKey
  cases o.importPK with
  | ok wal => exact infoInv_none
  | error e => exact h

theorem infoInv_handleImportMnemonic (o : Oracle) (w : Option Wallet)
    (sess : Option Session) (h : InfoInv sess) :
    InfoInv (handleImportMnemonic o w sess).session := by
  unfold handleImportMnemonic
  cases o.importMnemonic with
  | ok wal => exact infoInv_none
  | error e => exact h

theorem infoInv_onMessage (o : Oracle) (w : Option Wallet)
    (sess : Option Session) (text : String) (h : InfoInv sess) :
    InfoInv (onMessage o w sess text).session := by
  unfold onMessage
  split
  · split
    · exact h
    · split
      · exact h
      · split
        · exact h
        · exact infoInv_handleBuyTokenAddress _ _ _ _ h
        · exact infoInv_handleSellTokenAddress _ _ _ _ h
        · exact h
  · split
    · exact infoInv_none
    · split
      · exact infoInv_handleImportPrivateKey _ _ _ h
      · exact infoInv_handleImportMnemonic _ _ _ h
      · exact infoInv_handleBuyTokenAddress _ _ _ _ h
      · exact infoInv_handleBuyCustomAmount _ _ _ _ h
      · exact infoInv_handleSellTokenAddress _ _ _ _ h
      · exact infoInv_handleSellCustomAmount _ _ h
      · exact h

theorem infoInv_onCallback (o : Oracle) (w : Option Wallet)
    (sess : Option Session) (data : String) (h : InfoInv sess) :
    InfoInv (onCallback o w sess data).session := by
  unfold onCallback
  by_cases h1 : strStarts data "refresh_" = true
  · rw [if_pos h1]
    exact h
  rw [if_neg h1]
  by_cases h2 : strStarts data "sell_token_" = true
  · rw [if_pos h2]
    exact infoInv_handleSellToken _ _ _ _ h
  rw [if_neg h2]
  by_cases h3 : strStarts data "buy_token_" = true
  · rw [if_pos h3]
    dsimp only
    cases o.getTokenInfo (dropChars 10 data) with
    | ok info => exact infoInv_has _ (by simp)
    | error e => exact h
  rw [if_neg h3]
  by_cases h4 : data = "wallet"
  · rw [if_pos h4]
    exact infoInv_mk .WALLET_MENU (by decide) (by decide) (by decide) (by decide)
  rw [if_neg h4]
  by_cases h5 : data = "mywallet"
  · rw [if_pos h5]
    exact h
  rw [if_neg h5]
  by_cases h6 : data = "balance"
  · rw [if_pos h6]
    exact h
  rw [if_neg h6]
  by_cases h7 : data = "buy"
  · rw [if_pos h7]
    exact infoInv_handleBuy _ _ _ h
  rw [if_neg h7]
  by_cases h8 : data = "sell"
  · rw [if_pos h8]
    exact infoInv_handleSell _ _ h
  rw [if_neg h8]
  by_cases h9 : data = "help"
  · rw [if_pos h9]
    exact h
  rw [if_neg h9]
  by_cases h10 : data = "create_wallet"
  · rw [if_pos h10]
    exact h
  rw [if_neg h10]
  by_cases h11 : data = "show_private_key"
  · rw [if_pos h11]
    exact h
  rw [if_neg h11]
  by_cases h12 : data = "delete_wallet"
  · rw [if_pos h12]
    by_cases hw : w.isSome = true
    · rw [if_pos hw]
      exact h
    · rw [if_neg hw]
      exact h
  rw [if_neg h12]
  by_cases h13 : data = "import_private_key"
  · rw [if_pos h13]
    exact infoInv_mk .IMPORT_PRIVATE_KEY (by decide) (by decide) (by decide) (by decide)
  rw [if_neg h13]
  by_cases h14 : data = "import_mnemonic"
  · rw [if_pos h14]
    exact infoInv_mk .IMPORT_MNEMONIC (by decide) (by decide) (by decide) (by decide)
  rw [if_neg h14]
  by_cases h15 : data = "cancel"
  · rw [if_pos h15]
    exact infoInv_none
  rw [if_neg h15]
  by_cases h16 : data = "buy_1" ∨ data = "buy_2" ∨ data = "buy_5" ∨
      data = "buy_10" ∨ data = "buy_50" ∨ data = "buy_custom"
  · rw [if_pos h16]
    exact infoInv_handleBuyAmountChoice _ _ h
  rw [if_neg h16]
  by_cases h17 : data = "sell_25" ∨ data = "sell_50" ∨ data = "sell_75" ∨
      data = "sell_100" ∨ data = "sell_custom"
  · rw [if_pos h17]
    exact infoInv_handleSellAmountChoice _ _ h
  rw [if_neg h17]
  by_cases h18 : data = "confirm_buy"
  · rw [if_pos h18]
    exact infoInv_handleConfirmBuy _ _ _ h
  rw [if_neg h18]
  by_cases h19 : data = "confirm_sell"
  · rw [if_pos h19]
    exact infoInv_handleConfirmSell _ _ _ h
  rw [if_neg h19]
  exact h

theorem infoInv_step (o : Oracle) (st : UState) (e : Event)
    (h : InfoInv st.session) : InfoInv (step o st e).1.session := by
  cases e with
  | cmdStart => exact h
  | cmdHelp => exact h
  | cmdCreateWallet =>
    exact infoInv_mk .WALLET_MENU (by decide) (by decide) (by decide) (by decide)
  | cmdCreateWalletDirect => exact h
  | cmdMyWallet => exact h
  | cmdBalance => exact h
  | cmdBuy => exact infoInv_handleBuy o st.wallet st.session h
  | cmdSell => exact infoInv_handleSell st.wallet st.session h
  | text t => exact infoInv_onMessage o st.wallet st.session t h
  | callback d => exact infoInv_onCallback o st.wallet st.session d h

theorem infoInv_runEvents (st : UState) (l : List (Oracle × Event))
    (h : InfoInv st.session) : InfoInv (runEvents st l).session := by
  induction l generalizing st with
  | nil => exact h
  | cons oe rest ih => exact ih _ (infoInv_step oe.1 st oe.2 h)

/-! ## Claim theorems -/

/-- C1: for every user with a wallet on record and a session holding a
staged amount, processing a `confirm_buy` or `confirm_sell` callback clears
the session afterwards; the collaborator responses `o` are arbitrary, so
this covers both the swap call returning a transaction hash and the swap
call throwing.  The handlers read `tokenInfo.symbol` before the `try`, so
the clearing needs the session's `tokenInfo` to be populated; the third
conjunct shows this is no restriction on the program's inputs — every
session reachable from the empty state that holds a staged amount has
`tokenInfo` populated. -/
theorem confirm_always_clears_session (o : Oracle) (w : Wallet)
    (sb ss : Session) (_hb : sb.monAmount.isSome) (hbi : sb.tokenInfo.isSome)
    (_hs : ss.tokenAmount.isSome) (hsi : ss.tokenInfo.isSome) :
    (handleConfirmBuy o (some w) (some sb)).session = none ∧
    (handleConfirmSell o (some w) (some ss)).session = none ∧
    (∀ (w0 : Option Wallet) (l : List (Oracle × Event)) (s' : Session),
      (runEvents ⟨w0, none⟩ l).session = some s' →
      s'.monAmount.isSome ∨ s'.tokenAmount.isSome → s'.tokenInfo.isSome) := by
  refine ⟨?_, ?_, ?_⟩
  · obtain ⟨info, hinfo⟩ := Option.isSome_iff_exists.mp hbi
    cases hb : o.buyToken <;> simp [handleConfirmBuy, hinfo, hb]
  · obtain ⟨info, hinfo⟩ := Option.isSome_iff_exists.mp hsi
    cases hs : o.sellToken <;> simp [handleConfirmSell, hinfo, hs]
  · intro w0 l s' hrun hstaged
    exact (infoInv_runEvents ⟨w0, none⟩ l infoInv_none s' hrun).2 hstaged

/-- C1 witness: concrete staged sessions (both carrying their token
metadata, as staged sessions do), one oracle whose swap calls succeed and
one whose swap calls throw. -/
theorem confirm_always_clears_session_witness :
    ((handleConfirmBuy oracle0 (some w0) (some sessBuyStaged)).session = none ∧
     (handleConfirmSell oracle0 (some w0) (some sessSellStaged)).session = none) ∧
    ((handleConfirmBuy oracleThrow (some w0) (some sessBuyStaged)).session = none ∧
     (handleConfirmSell oracleThrow (some w0) (some sessSellStaged)).session = none) := by
  have h1 := confirm_always_clears_session oracle0 w0 sessBuyStaged sessSellStaged
    (by decide) (by decide) (by decide) (by decide)
  have h2 := confirm_always_clears_session oracleThrow w0 sessBuyStaged sessSellStaged
    (by decide) (by decide) (by decide) (by decide)
  exact ⟨⟨h1.1, h1.2.1⟩, ⟨h2.1, h2.2.1⟩⟩

/-- C2 counterexample: a `confirm_buy` callback arriving while the user's
session state is `SELL_AMOUNT` (not the expected `BUY_AMOUNT`) is not a
no-op — the session store changes (the session is cleared), refuting the
claim that every session-dependent callback in a mismatched state leaves
the store unchanged. -/
theorem stale_confirm_not_noop :
    sessSellStaged.state ≠ some SState.BUY_AMOUNT ∧
    (handleConfirmBuy oracle0 (some w0) (some sessSellStaged)).session ≠
      some sessSellStaged := by
  constructor
  · decide
  · decide

/-- C2 (amended): the amount-choice callbacks are silent no-ops whenever no
session exists or the session state differs from the expected one
(`BUY_AMOUNT` for buy choices, `SELL_AMOUNT` for sell choices); for
`confirm_buy` and `confirm_sell` only the no-session case is a silent
no-op.  With a wallet on record and an existing session whose `tokenInfo`
is populated (every reachable staged session is such), the confirmation
proceeds regardless of the session state and clears the session — the
store changes.  With a session lacking `tokenInfo`, the pre-`try`
`tokenInfo.symbol` read throws, the wrapper reports an error, and the
session is retained: the store is unchanged but an error is surfaced, so
this is not a silent no-op either. -/
theorem session_guards_amended (o : Oracle) (w : Option Wallet)
    (wal : Wallet) (s : Session) (data : String) :
    (handleBuyAmountChoice none data = ⟨none, []⟩) ∧
    (s.state ≠ some .BUY_AMOUNT → handleBuyAmountChoice (some s) data = ⟨some s, []⟩) ∧
    (handleSellAmountChoice none data = ⟨none, []⟩) ∧
    (s.state ≠ some .SELL_AMOUNT → handleSellAmountChoice (some s) data = ⟨some s, []⟩) ∧
    (handleConfirmBuy o w none = ⟨none, []⟩) ∧
    (handleConfirmSell o w none = ⟨none, []⟩) ∧
    (s.tokenInfo.isSome →
      (handleConfirmBuy o (some wal) (some s)).session = none ∧
      (handleConfirmSell o (some wal) (some s)).session = none) ∧
    (s.tokenInfo = none →
      handleConfirmBuy o (some wal) (some s) = ⟨some s, [.jsError]⟩ ∧
      handleConfirmSell o (some wal) (some s) = ⟨some s, [.jsError]⟩) := by
  refine ⟨rfl, fun h => by simp [handleBuyAmountChoice, h], rfl,
    fun h => by simp [handleSellAmountChoice, h],
    by cases w <;> rfl, by cases w <;> rfl, ?_, ?_⟩
  · intro hi
    obtain ⟨info, hinfo⟩ := Option.isSome_iff_exists.mp hi
    constructor
    · cases hb : o.buyToken <;> simp [handleConfirmBuy, hinfo, hb]
    · cases hs : o.sellToken <;> simp [handleConfirmSell, hinfo, hs]
  · intro hn
    exact ⟨by simp [handleConfirmBuy, hn], by simp [handleConfirmSell, hn]⟩

/-- C2 witness for the amended claim: a `WALLET_MENU` session for the
amount-choice no-ops and the retained-on-missing-`tokenInfo` confirms, and
a stale `SELL_AMOUNT` session (with `tokenInfo`) that a mismatched confirm
still clears. -/
theorem session_guards_amended_witness :
    (handleBuyAmountChoice none "buy_5" = ⟨none, []⟩) ∧
    (handleBuyAmountChoice (some (mkSession .WALLET_MENU)) "buy_5" =
      ⟨some (mkSession .WALLET_MENU), []⟩) ∧
    (handleSellAmountChoice none "sell_25" = ⟨none, []⟩) ∧
    (handleSellAmountChoice (some (mkSession .WALLET_MENU)) "sell_25" =
      ⟨some (mkSession .WALLET_MENU), []⟩) ∧
    (handleConfirmBuy oracle0 (some w0) none = ⟨none, []⟩) ∧
    (handleConfirmSell oracle0 (some w0) none = ⟨none, []⟩) ∧
    ((handleConfirmBuy oracle0 (some w0) (some sessSell100)).session = none ∧
     (handleConfirmSell oracle0 (some w0) (some sessSell100)).session = none) ∧
    (handleConfirmBuy oracle0 (some w0) (some (mkSession .WALLET_MENU)) =
       ⟨some (mkSession .WALLET_MENU), [.jsError]⟩ ∧
     handleConfirmSell oracle0 (some w0) (some (mkSession .WALLET_MENU)) =
       ⟨some (mkSession .WALLET_MENU), [.jsError]⟩) := by
  have hb5 := session_guards_amended oracle0 (some w0) w0 (mkSession .WALLET_MENU) "buy_5"
  have hs25 := session_guards_amended oracle0 (some w0) w0 (mkSession .WALLET_MENU) "sell_25"
  have hc := session_guards_amended oracle0 (some w0) w0 sessSell100 "buy_5"
  exact ⟨hb5.1, hb5.2.1 (by decide), hs25.2.2.1, hs25.2.2.2.1 (by decide),
    hb5.2.2.2.2.1, hb5.2.2.2.2.2.1, hc.2.2.2.2.2.2.1 (by decide),
    hb5.2.2.2.2.2.2.2 (by decide)⟩

/-- C9: the `cancel` callback with no session leaves the slot empty and
sends only the cancellation acknowledgement (no error), and cancelling is
idempotent on the session store. -/
theorem cancel_idempotent (o o' : Oracle) (w : Option Wallet) :
    (onCallback o w none "cancel" = ⟨w, none, [.cancelled]⟩) ∧
    (∀ sess : Option Session,
      (onCallback o' w (onCallback o w sess "cancel").session "cancel").session =
        (onCallback o w sess "cancel").session) := by
  constructor
  · rfl
  · intro sess
    rfl

/-- C9 witness: concrete oracle and wallet. -/
theorem cancel_idempotent_witness :
    (onCallback oracle0 (some w0) none "cancel" = ⟨some w0, none, [.cancelled]⟩) ∧
    (onCallback oracle0 (some w0)
        (onCallback oracle0 (some w0) (some sessSell100) "cancel").session
        "cancel").session =
      (onCallback oracle0 (some w0) (some sessSell100) "cancel").session :=
  ⟨(cancel_idempotent oracle0 oracle0 (some w0)).1,
   (cancel_idempotent oracle0 oracle0 (some w0)).2 (some sessSell100)⟩

/-- C4: free text in state `BUY_CUSTOM_AMOUNT` that does not parse as a
number, or parses to a non-positive value, is rejected with the
invalid-amount prompt and the session (hence its state) is unchanged;
`"3.5"` with sufficient fresh balance is accepted, moving the session to
`BUY_AMOUNT` with staged amount `3.5`. -/
theorem buy_custom_amount_validation (o : Oracle) (w : Option Wallet)
    (wal : Wallet) (s : Session) (m : ℚ)
    (hst : s.state = some .BUY_CUSTOM_AMOUNT) (hm : o.getBalance = .ok m) :
    (∀ text, parseNum text = none →
      handleBuyCustomAmount o w (some s) text = ⟨some s, [.invalidAmount]⟩) ∧
    (∀ text a, parseNum text = some a → a ≤ 0 →
      handleBuyCustomAmount o w (some s) text = ⟨some s, [.invalidAmount]⟩) ∧
    (7 / 2 ≤ m →
      handleBuyCustomAmount o (some wal) (some s) "3.5" =
        ⟨some { s with state := some .BUY_AMOUNT, monAmount := some (7 / 2) },
         [.confirmBuyPrompt (some (7 / 2))]⟩) := by
  refine ⟨?_, ?_, ?_⟩
  · intro text h
    simp [handleBuyCustomAmount, h]
  · intro text a h ha
    simp [handleBuyCustomAmount, h, ha]
  · intro hle
    have hlt : ¬ m < 7 / 2 := not_lt.mpr hle
    simp [handleBuyCustomAmount, parseNum_threeFive, hst, hm, hlt]

/-- C4 witness: rejecting `"0"`, `"-1"` and `"abc"` and accepting `"3.5"`
against a 100 MON balance. -/
theorem buy_custom_amount_validation_witness :
    (handleBuyCustomAmount oracle0 (some w0) (some sessBuyCustom) "abc" =
      ⟨some sessBuyCustom, [.invalidAmount]⟩) ∧
    (handleBuyCustomAmount oracle0 (some w0) (some sessBuyCustom) "0" =
      ⟨some sessBuyCustom, [.invalidAmount]⟩) ∧
    (handleBuyCustomAmount oracle0 (some w0) (some sessBuyCustom) "-1" =
      ⟨some sessBuyCustom, [.invalidAmount]⟩) ∧
    (handleBuyCustomAmount oracle0 (some w0) (some sessBuyCustom) "3.5" =
      ⟨some { sessBuyCustom with state := some .BUY_AMOUNT, monAmount := some (7 / 2) },
       [.confirmBuyPrompt (some (7 / 2))]⟩) := by
  have h := buy_custom_amount_validation oracle0 (some w0) w0 sessBuyCustom 100
    (by decide) rfl
  refine ⟨h.1 "abc" ?_, h.2.1 "0" 0 ?_ le_rfl, h.2.1 "-1" (-1) ?_ (by norm_num),
    h.2.2 (by norm_num)⟩
  · decide
  · rw [parseNum_eq_of_shape "0" ⟨false, 0, 0, 0⟩ (by decide), toRat_int]
    norm_num
  · rw [parseNum_eq_of_shape "-1" ⟨true, 1, 0, 0⟩ (by decide)]
    norm_num [NumShape.toRat]

/-- C5: a positive custom sell amount is checked against the token-balance
snapshot stored in the session when the sell flow began: above the
snapshot it is rejected with the insufficient-balance message and the
session is unchanged; at or below it, it is accepted and staged. -/
theorem sell_custom_amount_bounded (s : Session) (b a : ℚ) (text : String)
    (hst : s.state = some .SELL_CUSTOM_AMOUNT) (hb : s.tokenBalance = some b)
    (hp : parseNum text = some a) (hpos : 0 < a) :
    (b < a → handleSellCustomAmount (some s) text = ⟨some s, [.insufficientBalance]⟩) ∧
    (a ≤ b → handleSellCustomAmount (some s) text =
      ⟨some { s with state := some .SELL_AMOUNT, tokenAmount := some a },
       [.confirmSellPrompt (some a)]⟩) := by
  have hnpos : ¬ a ≤ 0 := not_le.mpr hpos
  constructor
  · intro hgt
    simp [handleSellCustomAmount, hp, hnpos, hst, hb, hgt]
  · intro hle
    have : ¬ b < a := not_lt.mpr hle
    simp [handleSellCustomAmount, hp, hnpos, hst, hb, this]

/-- C5 witness: snapshot 10, `"15"` rejected, `"10"` accepted. -/
theorem sell_custom_amount_bounded_witness :
    (handleSellCustomAmount (some sessSellCustom10) "15" =
      ⟨some sessSellCustom10, [.insufficientBalance]⟩) ∧
    (handleSellCustomAmount (some sessSellCustom10) "10" =
      ⟨some { sessSellCustom10 with state := some .SELL_AMOUNT, tokenAmount := some 10 },
       [.confirmSellPrompt (some 10)]⟩) := by
  have h15 : parseNum "15" = some 15 := by
    rw [parseNum_eq_of_shape "15" ⟨false, 15, 0, 0⟩ (by decide), toRat_int]
    norm_num
  have h10 : parseNum "10" = some 10 := by
    rw [parseNum_eq_of_shape "10" ⟨false, 10, 0, 0⟩ (by decide), toRat_int]
    norm_num
  have hA := sell_custom_amount_bounded sessSellCustom10 10 15 "15"
    (by decide) rfl h15 (by norm_num)
  have hB := sell_custom_amount_bounded sessSellCustom10 10 10 "10"
    (by decide) rfl h10 (by norm_num)
  exact ⟨hA.1 (by norm_num), hB.2 le_rfl⟩

/-- C6: the custom buy amount bound uses the native balance returned by the
fresh `getBalance` call made during validation (the session — including
any stored snapshot — is arbitrary here and does not enter the decision):
a fresh balance below the amount rejects and leaves the session unchanged,
otherwise the amount is staged. -/
theorem buy_custom_amount_fresh_balance (o : Oracle) (wal : Wallet)
    (s : Session) (text : String) (a m : ℚ)
    (hst : s.state = some .BUY_CUSTOM_AMOUNT) (hp : parseNum text = some a)
    (hpos : 0 < a) (hm : o.getBalance = .ok m) :
    (m < a → handleBuyCustomAmount o (some wal) (some s) text =
      ⟨some s, [.insufficientBalance]⟩) ∧
    (a ≤ m → handleBuyCustomAmount o (some wal) (some s) text =
      ⟨some { s with state := some .BUY_AMOUNT, monAmount := some a },
       [.confirmBuyPrompt (some a)]⟩) := by
  have hnpos : ¬ a ≤ 0 := not_le.mpr hpos
  constructor
  · intro hlt
    simp [handleBuyCustomAmount, hp, hnpos, hst, hm, hlt]
  · intro hle
    have : ¬ m < a := not_lt.mpr hle
    simp [handleBuyCustomAmount, hp, hnpos, hst, hm, this]

/-- C6 witness: a session carrying a stale snapshot of 1000 does not help —
the fresh balance 100 rejects `"200"` and accepts `"50"`. -/
theorem buy_custom_amount_fresh_balance_witness :
    (handleBuyCustomAmount oracle0 (some w0)
        (some { sessBuyCustom with tokenBalance := some 1000 }) "200" =
      ⟨some { sessBuyCustom with tokenBalance := some 1000 }, [.insufficientBalance]⟩) ∧
    (handleBuyCustomAmount oracle0 (some w0)
        (some { sessBuyCustom with tokenBalance := some 1000 }) "50" =
      ⟨some { { sessBuyCustom with tokenBalance := some 1000 } with
                state := some .BUY_AMOUNT, monAmount := some 50 },
       [.confirmBuyPrompt (some 50)]⟩) := by
  have h200 : parseNum "200" = some 200 := by
    rw [parseNum_eq_of_shape "200" ⟨false, 200, 0, 0⟩ (by decide), toRat_int]
    norm_num
  have h50 : parseNum "50" = some 50 := by
    rw [parseNum_eq_of_shape "50" ⟨false, 50, 0, 0⟩ (by decide), toRat_int]
    norm_num
  have hA := buy_custom_amount_fresh_balance oracle0 w0
    { sessBuyCustom with tokenBalance := some 1000 } "200" 200 100
    (by decide) h200 (by norm_num) rfl
  have hB := buy_custom_amount_fresh_balance oracle0 w0
    { sessBuyCustom with tokenBalance := some 1000 } "50" 50 100
    (by decide) h50 (by norm_num) rfl
  exact ⟨hA.1 (by norm_num), hB.2 (by norm_num)⟩

/-- `parseFloat` on a plain integer string via its shape. -/
theorem parseNum_intString (s : String) (n : Nat)
    (h : parseShape s = some ⟨false, n, 0, 0⟩) : parseNum s = some (n : ℚ) := by
  rw [parseNum_eq_of_shape s _ h, toRat_int]

/-- C7: in state `SELL_AMOUNT` with balance snapshot `b`, each percentage
choice `pct ∈ {25, 50, 75, 100}` stages `(b × pct / 100).toFixed(6)`,
i.e. `b × pct / 100` rounded to six decimal places. -/
theorem sell_percentage_amount (s : Session) (b : ℚ) (data : String) (pct : Nat)
    (hst : s.state = some .SELL_AMOUNT) (hb : s.tokenBalance = some b)
    (hdp : (data, pct) = ("sell_25", 25) ∨ (data, pct) = ("sell_50", 50) ∨
           (data, pct) = ("sell_75", 75) ∨ (data, pct) = ("sell_100", 100)) :
    handleSellAmountChoice (some s) data =
      ⟨some { s with tokenAmount := some (round6 (b * (pct : ℚ) / 100)) },
       [.confirmSellPrompt (some (round6 (b * (pct : ℚ) / 100)))]⟩ := by
  rcases hdp with h | h | h | h
  · injection h with h1 h2
    subst h1; subst h2
    have hpe : parseIntNat (underscoreField1 "sell_25") = 25 := by decide
    simp [handleSellAmountChoice, hst, hb, hpe]
  · injection h with h1 h2
    subst h1; subst h2
    have hpe : parseIntNat (underscoreField1 "sell_50") = 50 := by decide
    simp [handleSellAmountChoice, hst, hb, hpe]
  · injection h with h1 h2
    subst h1; subst h2
    have hpe : parseIntNat (underscoreField1 "sell_75") = 75 := by decide
    simp [handleSellAmountChoice, hst, hb, hpe]
  · injection h with h1 h2
    subst h1; subst h2
    have hpe : parseIntNat (underscoreField1 "sell_100") = 100 := by decide
    simp [handleSellAmountChoice, hst, hb, hpe]

/-- C7 witness: snapshot `100.0` with the 25% choice stages `25.000000`. -/
theorem sell_percentage_amount_witness :
    handleSellAmountChoice (some sessSell100) "sell_25" =
      ⟨some { sessSell100 with tokenAmount := some 25 },
       [.confirmSellPrompt (some 25)]⟩ := by
  have h := sell_percentage_amount sessSell100 100 "sell_25" 25 (by decide) rfl
    (Or.inl rfl)
  rw [h]
  norm_num [round6]

/-- C8: in state `BUY_AMOUNT`, each of the five fixed buy choices stages
its amount for confirmation while the session state remains `BUY_AMOUNT`
and `tokenAddress` and `tokenInfo` are untouched. -/
theorem buy_fixed_choice_frame (s : Session) (data : String) (v : ℚ)
    (hst : s.state = some .BUY_AMOUNT)
    (hdv : (data, v) = ("buy_1", 1) ∨ (data, v) = ("buy_2", 2) ∨
           (data, v) = ("buy_5", 5) ∨ (data, v) = ("buy_10", 10) ∨
           (data, v) = ("buy_50", 50)) :
    handleBuyAmountChoice (some s) data =
      ⟨some { s with monAmount := some v }, [.confirmBuyPrompt (some v)]⟩ ∧
    ({ s with monAmount := some v } : Session).state = some .BUY_AMOUNT ∧
    ({ s with monAmount := some v } : Session).tokenAddress = s.tokenAddress ∧
    ({ s with monAmount := some v } : Session).tokenInfo = s.tokenInfo := by
  refine ⟨?_, hst, rfl, rfl⟩
  rcases hdv with h | h | h | h | h
  · injection h with h1 h2
    subst h1; subst h2
    have hpe : parseNum (underscoreField1 "buy_1") = some ((1 : Nat) : ℚ) :=
      parseNum_intString "1" 1 (by decide)
    simp [handleBuyAmountChoice, hst, hpe]
  · injection h with h1 h2
    subst h1; subst h2
    have hpe : parseNum (underscoreField1 "buy_2") = some ((2 : Nat) : ℚ) :=
      parseNum_intString "2" 2 (by decide)
    simp [handleBuyAmountChoice, hst, hpe]
  · injection h with h1 h2
    subst h1; subst h2
    have hpe : parseNum (underscoreField1 "buy_5") = some ((5 : Nat) : ℚ) :=
      parseNum_intString "5" 5 (by decide)
    simp [handleBuyAmountChoice, hst, hpe]
  · injection h with h1 h2
    subst h1; subst h2
    have hpe : parseNum (underscoreField1 "buy_10") = some ((10 : Nat) : ℚ) :=
      parseNum_intString "10" 10 (by decide)
    simp [handleBuyAmountChoice, hst, hpe]
  · injection h with h1 h2
    subst h1; subst h2
    have hpe : parseNum (underscoreField1 "buy_50") = some ((50 : Nat) : ℚ) :=
      parseNum_intString "50" 50 (by decide)
    simp [handleBuyAmountChoice, hst, hpe]

/-- C8 witness: the `buy_5` choice on a concrete `BUY_AMOUNT` session. -/
theorem buy_fixed_choice_frame_witness :
    handleBuyAmountChoice (some sessBuyStaged) "buy_5" =
      ⟨some { sessBuyStaged with monAmount := some 5 }, [.confirmBuyPrompt (some 5)]⟩ ∧
    ({ sessBuyStaged with monAmount := some (5 : ℚ) } : Session).state = some .BUY_AMOUNT ∧
    ({ sessBuyStaged with monAmount := some (5 : ℚ) } : Session).tokenAddress =
      sessBuyStaged.tokenAddress ∧
    ({ sessBuyStaged with monAmount := some (5 : ℚ) } : Session).tokenInfo =
      sessBuyStaged.tokenInfo :=
  buy_fixed_choice_frame sessBuyStaged "buy_5" 5 (by decide)
    (Or.inr (Or.inr (Or.inl rfl)))

/-- C3: routing of free text matching the address pattern.  With no wallet
it is rejected and the session slot untouched; with a wallet and no session
(or a session with no state) the result is a read-only token presentation
(given the lookups succeed) with the session slot unchanged; with a session
in state `BUY_TOKEN` and a successful token-info fetch the session becomes
`BUY_AMOUNT` with `tokenAddress` and `tokenInfo` populated. -/
theorem address_message_routing (o : Oracle) (w : Wallet)
    (sess : Option Session) (s : Session) (text : String) (info : TokenInfo)
    (b m : ℚ) (haddr : isAddressFormat text = true) :
    (onMessage o none sess text = ⟨none, sess, [.walletNotFound]⟩) ∧
    ((sess = none ∨ ∃ s0, sess = some s0 ∧ s0.state = none) →
      (onMessage o (some w) sess text).session = sess ∧
      (onMessage o (some w) sess text).wallet = some w ∧
      (o.getTokenInfo text = .ok info → o.getTokenDetails text = .ok () →
       o.getTokenBalance text = .ok b → o.getBalance = .ok m →
       (onMessage o (some w) sess text).msgs = [.loading, .tokenPresentation info])) ∧
    (s.state = some .BUY_TOKEN → o.getTokenInfo text = .ok info →
      onMessage o (some w) (some s) text =
        ⟨some w, some ⟨some .BUY_AMOUNT, some text, some info, none, none, none⟩,
         [.loading, .buyAmountPrompt info text]⟩) := by
  refine ⟨by simp [onMessage, haddr], ?_, ?_⟩
  · rintro (rfl | ⟨s0, rfl, hs0⟩)
    · refine ⟨by simp [onMessage, haddr], by simp [onMessage, haddr], ?_⟩
      intro h1 h2 h3 h4
      simp [onMessage, haddr, handleContractAddressInput, h1, h2, h3, h4]
    · refine ⟨by simp [onMessage, haddr, hs0], by simp [onMessage, haddr, hs0], ?_⟩
      intro h1 h2 h3 h4
      simp [onMessage, haddr, hs0, handleContractAddressInput, h1, h2, h3, h4]
  · intro hst h1
    simp [onMessage, haddr, hst, handleBuyTokenAddress, h1, HR.lift]

/-- C3 witness: a concrete address with no wallet, then with a wallet and
no session, then with a wallet and a `BUY_TOKEN` session. -/
theorem address_message_routing_witness :
    (onMessage oracle0 none none addr0 = ⟨none, none, [.walletNotFound]⟩) ∧
    ((onMessage oracle0 (some w0) none addr0).session = none ∧
     (onMessage oracle0 (some w0) none addr0).wallet = some w0 ∧
     (onMessage oracle0 (some w0) none addr0).msgs =
       [.loading, .tokenPresentation tInfo0]) ∧
    (onMessage oracle0 (some w0) (some (mkSession .BUY_TOKEN)) addr0 =
      ⟨some w0, some ⟨some .BUY_AMOUNT, some addr0, some tInfo0, none, none, none⟩,
       [.loading, .buyAmountPrompt tInfo0 addr0]⟩) := by
  have h := address_message_routing oracle0 w0 none (mkSession .BUY_TOKEN)
    addr0 tInfo0 10 100 (by decide)
  have h2 := h.2.1 (Or.inl rfl)
  exact ⟨h.1, ⟨h2.1, h2.2.1, h2.2.2 rfl rfl rfl rfl⟩, h.2.2 (by decide) rfl⟩

/-! ## The sell-snapshot invariant (C10) -/

/-- Every session sitting in a sell amount state carries a strictly
positive token-balance snapshot. -/
def SellInv (sess : Option Session) : Prop :=
  ∀ s, sess = some s →
    (s.state = some SState.SELL_AMOUNT ∨ s.state = some SState.SELL_CUSTOM_AMOUNT) →
    ∃ b, s.tokenBalance = some b ∧ 0 < b

theorem sellInv_none : SellInv none := by
  intro s h
  cases h

theorem sellInv_not_sell (s : Session)
    (h1 : s.state ≠ some SState.SELL_AMOUNT)
    (h2 : s.state ≠ some SState.SELL_CUSTOM_AMOUNT) : SellInv (some s) := by
  intro s' e hst
  injection e with e
  subst e
  rcases hst with h | h
  · exact absurd h h1
  · exact absurd h h2

theorem sellInv_mk (st : SState) (h1 : st ≠ .SELL_AMOUNT)
    (h2 : st ≠ .SELL_CUSTOM_AMOUNT) : SellInv (some (mkSession st)) := by
  refine sellInv_not_sell _ ?_ ?_ <;> simp [mkSession]
  · exact h1
  · exact h2

theorem sellInv_pos (s : Session) (b : ℚ) (hb : s.tokenBalance = some b)
    (hpos : 0 < b) : SellInv (some s) := by
  intro s' e _
  injection e with e
  subst e
  exact ⟨b, hb, hpos⟩

theorem sellInv_handleBuy (o : Oracle) (w : Option Wallet)
    (sess : Option Session) (h : SellInv sess) :
    SellInv (handleBuy o w sess).session := by
  unfold handleBuy
  cases w with
  | none => exact h
  | some wal =>
    cases o.getBalance with
    | error e => exact h
    | ok b =>
      by_cases hle : b ≤ 0
      · simp only [if_pos hle]
        exact h
      · simp only [if_neg hle]
        exact sellInv_mk .BUY_TOKEN (by decide) (by decide)

theorem sellInv_handleSell (w : Option Wallet) (sess : Option Session)
    (h : SellInv sess) : SellInv (handleSell w sess).session := by
  unfold handleSell
  cases w with
  | none => exact h
  | some wal => exact sellInv_mk .SELL_TOKEN (by decide) (by decide)

theorem sellInv_handleBuyTokenAddress (o : Oracle) (w : Option Wallet)
    (sess : Option Session) (text : String) (h : SellInv sess) :
    SellInv (handleBuyTokenAddress o w sess text).session := by
  unfold handleBuyTokenAddress
  split
  · exact h
  · split
    · split
      · split
        · exact sellInv_not_sell _ (by simp) (by simp)
        · exact h
      · exact h
    · exact h

theorem sellInv_handleBuyAmountChoice (sess : Option Session) (data : String)
    (h : SellInv sess) : SellInv (handleBuyAmountChoice sess data).session := by
  unfold handleBuyAmountChoice
  cases sess with
  | none => exact sellInv_none
  | some s =>
    dsimp only
    by_cases hst : s.state = some SState.BUY_AMOUNT
    · rw [if_neg (not_not_intro hst)]
      by_cases hd : data = "buy_custom"
      · rw [if_pos hd]
        exact sellInv_not_sell _ (by simp) (by simp)
      · rw [if_neg hd]
        exact sellInv_not_sell _ (by simp [hst]) (by simp [hst])
    · rw [if_pos hst]
      exact h

theorem sellInv_handleBuyCustomAmount (o : Oracle) (w : Option Wallet)
    (sess : Option Session) (text : String) (h : SellInv sess) :
    SellInv (handleBuyCustomAmount o w sess text).session := by
  unfold handleBuyCustomAmount
  cases parseNum text with
  | none => exact h
  | some a =>
    dsimp only
    by_cases ha : a ≤ 0
    · rw [if_pos ha]
      exact h
    · rw [if_neg ha]
      cases sess with
      | none => exact sellInv_none
      | some s =>
        dsimp only
        by_cases hst : s.state = some SState.BUY_CUSTOM_AMOUNT
        · rw [if_neg (not_not_intro hst)]
          cases w with
          | none => exact h
          | some wal =>
            dsimp only
            cases o.getBalance with
            | error e => exact h
            | ok m =>
              dsimp only
              by_cases hlt : m < a
              · rw [if_pos hlt]
                exact h
              · rw [if_neg hlt]
                apply sellInv_not_sell <;> simp
        · rw [if_pos hst]
          exact h

theorem sellInv_handleConfirmBuy (o : Oracle) (w : Option Wallet)
    (sess : Option Session) (h : SellInv sess) :
    SellInv (handleConfirmBuy o w sess).session := by
  unfold handleConfirmBuy
  cases sess with
  | none => exact sellInv_none
  | some s =>
    cases w with
    | none => exact h
    | some wal =>
      dsimp only
      cases s.tokenInfo with
      | none => exact h
      | some info =>
        cases o.buyToken with
        | ok tx => exact sellInv_none
        | error e => exact sellInv_none

theorem sellInv_handleConfirmSell (o : Oracle) (w : Option Wallet)
    (sess : Option Session) (h : SellInv sess) :
    SellInv (handleConfirmSell o w sess).session := by
  unfold handleConfirmSell
  cases sess with
  | none => exact sellInv_none
  | some s =>
    cases w with
    | none => exact h
    | some wal =>
      dsimp only
      cases s.tokenInfo with
      | none => exact h
      | some info =>
        cases o.sellToken with
        | ok tx => exact sellInv_none
        | error e => exact sellInv_none

theorem sellInv_handleSellTokenAddress (o : Oracle) (w : Option Wallet)
    (sess : Option Session) (text : String) (h : SellInv sess) :
    SellInv (handleSellTokenAddress o w sess text).session := by
  unfold handleSellTokenAddress
  split
  · exact h
  · split
    · split
      · cases w with
        | none => exact h
        | some wal =>
          cases o.getTokenInfo text with
          | error e => exact h
          | ok info =>
            cases hb : o.getTokenBalance text with
            | error e => exact h
            | ok b =>
              by_cases hle : b ≤ 0
              · simp only [if_pos hle]
                exact h
              · simp only [if_neg hle]
                exact sellInv_pos _ b rfl (lt_of_not_le hle)
      · exact h
    · exact h

theorem sellInv_handleSellAmountChoice (sess : Option Session) (data : String)
    (h : SellInv sess) : SellInv (handleSellAmountChoice sess data).session := by
  unfold handleSellAmountChoice
  cases sess with
  | none => exact sellInv_none
  | some s =>
    dsimp only
    by_cases hst : s.state = some SState.SELL_AMOUNT
    · obtain ⟨b, hb, hpos⟩ := h s rfl (Or.inl hst)
      rw [if_neg (not_not_intro hst)]
      by_cases hd : data = "sell_custom"
      · rw [if_pos hd]
        exact sellInv_pos _ b hb hpos
      · rw [if_neg hd]
        exact sellInv_pos _ b hb hpos
    · rw [if_pos hst]
      exact h

theorem sellInv_handleSellCustomAmount (sess : Option Session) (text : String)
    (h : SellInv sess) : SellInv (handleSellCustomAmount sess text).session := by
  unfold handleSellCustomAmount
  cases parseNum text with
  | none => exact h
  | some a =>
    dsimp only
    by_cases ha : a ≤ 0
    · rw [if_pos ha]
      exact h
    · rw [if_neg ha]
      cases sess with
      | none => exact sellInv_none
      | some s =>
        dsimp only
        by_cases hst : s.state = some SState.SELL_CUSTOM_AMOUNT
        · obtain ⟨b, hb, hpos⟩ := h s rfl (Or.inr hst)
          rw [if_neg (not_not_intro hst), hb]
          dsimp only
          by_cases hgt : a > b
          · rw [if_pos hgt]
            exact h
          · rw [if_neg hgt]
            exact sellInv_pos _ b rfl hpos
        · rw [if_pos hst]
          exact h

theorem sellInv_handleSellToken (o : Oracle) (w : Option Wallet)
    (sess : Option Session) (addr : String) (h : SellInv sess) :
    SellInv (handleSellToken o w sess addr).session := by
  unfold handleSellToken
  cases w with
  | none => exact h
  | some wal =>
    cases o.getTokenInfo addr with
    | error e => exact h
    | ok info =>
      cases o.getTokenBalance addr with
      | error e => exact h
      | ok b =>
        by_cases hle : b ≤ 0
        · simp only [if_pos hle]
          exact h
        · simp only [if_neg hle]
          exact sellInv_pos _ b rfl (lt_of_not_le hle)

theorem sellInv_handleImportPrivateKey (o : Oracle) (w : Option Wallet)
    (sess : Option Session) (h : SellInv sess) :
    SellInv (handleImportPrivateKey o w sess).session := by
  unfold handleImportPrivateKey
  cases o.importPK with
  | ok wal => exact sellInv_none
  | error e => exact h

theorem sellInv_handleImportMnemonic (o : Oracle) (w : Option Wallet)
    (sess : Option Session) (h : SellInv sess) :
    SellInv (handleImportMnemonic o w sess).session := by
  unfold handleImportMnemonic
  cases o.importMnemonic with
  | ok wal => exact sellInv_none
  | error e => exact h

theorem sellInv_onMessage (o : Oracle) (w : Option Wallet)
    (sess : Option Session) (text : String) (h : SellInv sess) :
    SellInv (onMessage o w sess text).session := by
  unfold onMessage
  split
  · split
    · exact h
    · split
      · exact h
      · split
        · exact h
        · exact sellInv_handleBuyTokenAddress _ _ _ _ h
        · exact sellInv_handleSellTokenAddress _ _ _ _ h
        · exact h
  · split
    · exact sellInv_none
    · split
      · exact sellInv_handleImportPrivateKey _ _ _ h
      · exact sellInv_handleImportMnemonic _ _ _ h
      · exact sellInv_handleBuyTokenAddress _ _ _ _ h
      · exact sellInv_handleBuyCustomAmount _ _ _ _ h
      · exact sellInv_handleSellTokenAddress _ _ _ _ h
      · exact sellInv_handleSellCustomAmount _ _ h
      · exact h

theorem sellInv_onCallback (o : Oracle) (w : Option Wallet)
    (sess : Option Session) (data : String) (h : SellInv sess) :
    SellInv (onCallback o w sess data).session := by
  unfold onCallback
  by_cases h1 : strStarts data "refresh_" = true
  · rw [if_pos h1]
    exact h
  rw [if_neg h1]
  by_cases h2 : strStarts data "sell_token_" = true
  · rw [if_pos h2]
    exact sellInv_handleSellToken _ _ _ _ h
  rw [if_neg h2]
  by_cases h3 : strStarts data "buy_token_" = true
  · rw [if_pos h3]
    dsimp only
    cases o.getTokenInfo (dropChars 10 data) with
    | ok info => apply sellInv_not_sell <;> simp
    | error e => exact h
  rw [if_neg h3]
  by_cases h4 : data = "wallet"
  · rw [if_pos h4]
    exact sellInv_mk .WALLET_MENU (by decide) (by decide)
  rw [if_neg h4]
  by_cases h5 : data = "mywallet"
  · rw [if_pos h5]
    exact h
  rw [if_neg h5]
  by_cases h6 : data = "balance"
  · rw [if_pos h6]
    exact h
  rw [if_neg h6]
  by_cases h7 : data = "buy"
  · rw [if_pos h7]
    exact sellInv_handleBuy _ _ _ h
  rw [if_neg h7]
  by_cases h8 : data = "sell"
  · rw [if_pos h8]
    exact sellInv_handleSell _ _ h
  rw [if_neg h8]
  by_cases h9 : data = "help"
  · rw [if_pos h9]
    exact h
  rw [if_neg h9]
  by_cases h10 : data = "create_wallet"
  · rw [if_pos h10]
    exact h
  rw [if_neg h10]
  by_cases h11 : data = "show_private_key"
  · rw [if_pos h11]
    exact h
  rw [if_neg h11]
  by_cases h12 : data = "delete_wallet"
  · rw [if_pos h12]
    by_cases hw : w.isSome = true
    · rw [if_pos hw]
      exact h
    · rw [if_neg hw]
      exact h
  rw [if_neg h12]
  by_cases h13 : data = "import_private_key"
  · rw [if_pos h13]
    exact sellInv_mk .IMPORT_PRIVATE_KEY (by decide) (by decide)
  rw [if_neg h13]
  by_cases h14 : data = "import_mnemonic"
  · rw [if_pos h14]
    exact sellInv_mk .IMPORT_MNEMONIC (by decide) (by decide)
  rw [if_neg h14]
  by_cases h15 : data = "cancel"
  · rw [if_pos h15]
    exact sellInv_none
  rw [if_neg h15]
  by_cases h16 : data = "buy_1" ∨ data = "buy_2" ∨ data = "buy_5" ∨
      data = "buy_10" ∨ data = "buy_50" ∨ data = "buy_custom"
  · rw [if_pos h16]
    exact sellInv_handleBuyAmountChoice _ _ h
  rw [if_neg h16]
  by_cases h17 : data = "sell_25" ∨ data = "sell_50" ∨ data = "sell_75" ∨
      data = "sell_100" ∨ data = "sell_custom"
  · rw [if_pos h17]
    exact sellInv_handleSellAmountChoice _ _ h
  rw [if_neg h17]
  by_cases h18 : data = "confirm_buy"
  · rw [if_pos h18]
    exact sellInv_handleConfirmBuy _ _ _ h
  rw [if_neg h18]
  by_cases h19 : data = "confirm_sell"
  · rw [if_pos h19]
    exact sellInv_handleConfirmSell _ _ _ h
  rw [if_neg h19]
  exact h

theorem sellInv_step (o : Oracle) (st : UState) (e : Event)
    (h : SellInv st.session) : SellInv (step o st e).1.session := by
  cases e with
  | cmdStart => exact h
  | cmdHelp => exact h
  | cmdCreateWallet => exact sellInv_mk .WALLET_MENU (by decide) (by decide)
  | cmdCreateWalletDirect => exact h
  | cmdMyWallet => exact h
  | cmdBalance => exact h
  | cmdBuy => exact sellInv_handleBuy o st.wallet st.session h
  | cmdSell => exact sellInv_handleSell st.wallet st.session h
  | text t => exact sellInv_onMessage o st.wallet st.session t h
  | callback d => exact sellInv_onCallback o st.wallet st.session d h

theorem sellInv_runEvents (st : UState) (l : List (Oracle × Event))
    (h : SellInv st.session) : SellInv (runEvents st l).session := by
  induction l generalizing st with
  | nil => exact h
  | cons oe rest ih => exact ih _ (sellInv_step oe.1 st oe.2 h)

/-- C10: both entry paths into `SELL_AMOUNT` (an address entered in state
`SELL_TOKEN`, and the `sell_token_` button) create the session only when
the fetched token balance is strictly positive — a balance at or below
zero sends the nothing-to-sell message and leaves the session slot exactly
as it was — and consequently every session reachable from the empty state
that sits in `SELL_AMOUNT` carries a strictly positive balance snapshot. -/
theorem sell_amount_positive_snapshot (o : Oracle) (w : Wallet) (s : Session)
    (sess : Option Session) (text addr : String) (info : TokenInfo) (b : ℚ)
    (haddr : isAddressFormat text = true) (hst : s.state = some .SELL_TOKEN)
    (hinfo : o.getTokenInfo text = .ok info)
    (hbal : o.getTokenBalance text = .ok b)
    (hinfoB : o.getTokenInfo addr = .ok info)
    (hbalB : o.getTokenBalance addr = .ok b) :
    (b ≤ 0 →
      handleSellTokenAddress o (some w) (some s) text =
        ⟨some s, [.loading, .noTokensToSell]⟩ ∧
      handleSellToken o (some w) sess addr = ⟨sess, [.noTokensToSell]⟩) ∧
    (0 < b →
      (handleSellTokenAddress o (some w) (some s) text).session =
        some ⟨some .SELL_AMOUNT, some text, some info, some b, none, none⟩ ∧
      (handleSellToken o (some w) sess addr).session =
        some ⟨some .SELL_AMOUNT, some addr, some info, some b, none, none⟩) ∧
    (∀ (w0 : Option Wallet) (l : List (Oracle × Event)) (s' : Session),
      (runEvents ⟨w0, none⟩ l).session = some s' →
      s'.state = some SState.SELL_AMOUNT →
      ∃ b', s'.tokenBalance = some b' ∧ 0 < b') := by
  refine ⟨?_, ?_, ?_⟩
  · intro hle
    constructor
    · simp [handleSellTokenAddress, haddr, hst, hinfo, hbal, hle]
    · simp [handleSellToken, hinfoB, hbalB, hle]
  · intro hpos
    have hle : ¬ b ≤ 0 := not_le.mpr hpos
    constructor
    · simp [handleSellTokenAddress, haddr, hst, hinfo, hbal, hle]
    · simp [handleSellToken, hinfoB, hbalB, hle]
  · intro w0 l s' hrun hst'
    exact sellInv_runEvents ⟨w0, none⟩ l sellInv_none s' hrun (Or.inl hst')

/-- Collaborators reporting a zero token balance. -/
def oracleZeroBal : Oracle :=
  ⟨w0, .ok w0, .ok w0, .ok 100, fun _ => .ok tInfo0, fun _ => .ok 0,
   fun _ => .ok (), .ok "0xbuytx", .ok "0xselltx"⟩

/-- C10 witness: a zero balance refuses both entry paths; a positive
balance creates the `SELL_AMOUNT` session; and a concrete trace that ends
in `SELL_AMOUNT` (a `sell_token_` button press against the 10-token
oracle) satisfies the snapshot invariant. -/
theorem sell_amount_positive_snapshot_witness :
    (handleSellTokenAddress oracleZeroBal (some w0)
        (some (mkSession .SELL_TOKEN)) addr0 =
      ⟨some (mkSession .SELL_TOKEN), [.loading, .noTokensToSell]⟩) ∧
    (handleSellToken oracleZeroBal (some w0) none addr0 =
      ⟨none, [.noTokensToSell]⟩) ∧
    ((handleSellTokenAddress oracle0 (some w0)
        (some (mkSession .SELL_TOKEN)) addr0).session =
      some ⟨some .SELL_AMOUNT, some addr0, some tInfo0, some 10, none, none⟩) ∧
    (∃ b', (⟨some .SELL_AMOUNT, some addr0, some tInfo0, some 10, none,
        none⟩ : Session).tokenBalance = some b' ∧ 0 < b') := by
  have hz := sell_amount_positive_snapshot oracleZeroBal w0
    (mkSession .SELL_TOKEN) none addr0 addr0 tInfo0 0 (by decide) (by decide)
    rfl rfl rfl rfl
  have hp := sell_amount_positive_snapshot oracle0 w0
    (mkSession .SELL_TOKEN) none addr0 addr0 tInfo0 10 (by decide) (by decide)
    rfl rfl rfl rfl
  have hz1 := hz.1 le_rfl
  have hp1 := hp.2.1 (by norm_num)
  refine ⟨hz1.1, hz1.2, hp1.1, ?_⟩
  exact hp.2.2 (some w0)
    [(oracle0, Event.callback ("sell_token_" ++ addr0))]
    ⟨some .SELL_AMOUNT, some addr0, some tInfo0, some 10, none, none⟩
    (by decide) (by decide)

end MonadBot
